import Mathlib

/-!
Shallow embedding of the point-of-sale core of the repository
(`sales/serializers.py`, `sales/models.py`, `sales/views.py`,
`sales/signals.py`, `inventory/models.py`).

Conventions of the embedding:
* All monetary amounts are Django `DecimalField`s with `decimal_places=2`,
  so every validated value is an exact multiple of 1/100; we represent them
  as integers counting hundredths (kobo).  `vat_percent` is likewise a
  two-decimal-place field and is represented in hundredths of a percent.
* `Product.quantity` is a `PositiveIntegerField`; in-memory Python arithmetic
  on it is plain integer arithmetic, so it is an `Int` here and its
  non-negativity is proved, not assumed.
* Django's `@transaction.atomic` semantics: when the wrapped code raises, all
  writes of the block are rolled back, so the observable database after a
  failed call is the caller's unchanged one.
-/

namespace KasaliOloshe

/-- Payment methods of a sale (`sales/models.py`, `Sale.PAYMENT_METHODS`). -/
inductive PaymentMethod where
| cash
| transfer
| pos
| credit
deriving DecidableEq, Repr

/-- Credit status choices (`sales/models.py`, `Credit.STATUS_CHOICES`):
`pending`, `partially_paid`, `cleared`. -/
inductive CreditStatus where
| pending
| partPaid
| cleared
deriving DecidableEq, Repr

/-- Rounding of the exact quotient n/d (with d > 0) to the nearest integer,
ties to even: the behaviour of Python `round(x, 2)` on a `Decimal`, whose
context rounding is ROUND_HALF_EVEN.  Used by the `round(..., 2)` calls in
`SaleSerializer.create` (`sales/serializers.py` lines 156-162). -/
def halfEvenDiv (n d : Int) : Int :=
  let q := Int.fdiv n d
  let r := n - q * d
  if 2 * r < d then q
  else if d < 2 * r then q + 1
  else if q % 2 = 0 then q else q + 1

/-- Modelled from the spec: rounding of n/d to the nearest integer with ties
rounded up ("round-half-up"), stated only to compare the spec's claimed
rounding mode with the code's half-even rounding. -/
def halfUpDiv (n d : Int) : Int :=
  let q := Int.fdiv n d
  let r := n - q * d
  if 2 * r < d then q else q + 1

/-- One line item of a sale request, after DRF field deserialization:
a resolved product reference, a quantity and a unit price (hundredths). -/
structure ItemInput where
  productId : Nat
  quantity : Int
  unitPrice : Int
deriving DecidableEq, Repr

/-- `subtotal = sum(item['quantity'] * item['unit_price'] for ...)`
(`sales/serializers.py` lines 143-146, also 123-126). -/
def saleSubtotal (items : List ItemInput) : Int :=
  (items.map (fun it => it.quantity * it.unitPrice)).sum

/-- Result of the pricing block of `SaleSerializer.create`. -/
structure Pricing where
  subtotal : Int
  discountAmount : Int
  vatAmount : Int
  totalAmount : Int
  changeDue : Int
deriving DecidableEq, Repr

/-- The pricing computation of `SaleSerializer.create`
(`sales/serializers.py` lines 142-162), in hundredths:
`discount = min(discount_amount, subtotal)`;
`vat_base = subtotal - discount`;
`vat_amount = round(vat_base * vat_percent / 100, 2) if vat_percent else 0`,
which in hundredths is the half-even division of `vatBase * vatPercent`
by 10000;
`total = round(vat_base + vat_amount, 2)` — an identity, both operands being
whole hundredths;
`change_due = round(amount_paid - total, 2) if amount_paid >= total else 0`,
again with the `round` an identity on whole hundredths. -/
def computePricing (items : List ItemInput) (discountAmount vatPercent amountPaid : Int) :
    Pricing :=
  let subtotal := saleSubtotal items
  let discount := min discountAmount subtotal
  let vatBase := subtotal - discount
  let vatAmount := if vatPercent ≠ 0 then halfEvenDiv (vatBase * vatPercent) 10000 else 0
  let total := vatBase + vatAmount
  let changeDue := if total ≤ amountPaid then amountPaid - total else 0
  { subtotal := subtotal, discountAmount := discount, vatAmount := vatAmount,
    totalAmount := total, changeDue := changeDue }

/-- A `Credit` row (`sales/models.py` lines 85-100); amounts in hundredths,
together with its append-only list of payment amounts
(`CreditPayment.amount`, via the `payments` related name). -/
structure CreditRec where
  invoiceId : Nat
  customerName : String
  totalAmount : Int
  amountPaid : Int
  outstandingAmount : Int
  status : CreditStatus
  payments : List Int
deriving DecidableEq, Repr

/-- `Credit.update_status` (`sales/models.py` lines 105-113), as the pure
function of the two amounts it computes:
outstanding ≤ 0 ⇒ cleared; else amount_paid > 0 ⇒ partially_paid;
else pending. -/
def pureStatus (amountPaid outstandingAmount : Int) : CreditStatus :=
  if outstandingAmount ≤ 0 then CreditStatus.cleared
  else if 0 < amountPaid then CreditStatus.partPaid
  else CreditStatus.pending

/-- `CreditPayment.save` (`sales/models.py` lines 135-142): only when the
payment has no primary key yet (`if not self.pk`, a fresh row) does it mutate
the parent credit — add the amount to `amount_paid`, subtract it from
`outstanding_amount`, recompute the status via `update_status` — and the
insert appends the payment row.  Re-saving an already persisted payment
(pk set) performs none of these mutations. -/
def creditPaymentSave (pk : Option Nat) (c : CreditRec) (amount : Int) : CreditRec :=
  if pk = none then
    let c1 := { c with amountPaid := c.amountPaid + amount,
                       outstandingAmount := c.outstandingAmount - amount }
    let c2 := { c1 with status := pureStatus c1.amountPaid c1.outstandingAmount }
    { c2 with payments := c2.payments ++ [amount] }
  else c

/-- `CreditViewSet.clear` (`sales/views.py` lines 578-628): reject if the
credit is already cleared; `ClearCreditSerializer.validate_amount_paid`
rejects an amount ≤ 0; reject if the amount exceeds the outstanding amount;
otherwise create a `CreditPayment` row, whose `save` applies the amounts and
recomputes the status in the same atomic block. -/
def clearCredit (c : CreditRec) (amount : Int) : Except String CreditRec :=
  if c.status = CreditStatus.cleared then Except.error "Credit is already cleared"
  else if amount ≤ 0 then Except.error "Payment amount must be greater than zero"
  else if c.outstandingAmount < amount then
    Except.error "Payment amount cannot exceed outstanding amount"
  else Except.ok (creditPaymentSave none c amount)

/-- `CreditViewSet.mark_partial` (`sales/views.py` lines 636-655): reject if
the credit is already cleared; otherwise set `status` to `partially_paid`
directly, without consulting the amounts. -/
def markAsPartPaid (c : CreditRec) : Except String CreditRec :=
  if c.status = CreditStatus.cleared then Except.error "Credit is already cleared"
  else if c.status ≠ CreditStatus.partPaid then
    Except.ok { c with status := CreditStatus.partPaid }
  else Except.ok c

/-- A product row (`inventory/models.py`, `Product`): the identifier and the
on-hand `quantity` (`PositiveIntegerField`), the two columns the sale paths
read and write.  The remaining columns (name, sku, prices, threshold) play no
role in the verified paths beyond reference resolution, which the serializer
performs before `validate` runs, so items arrive here with a resolved id. -/
structure Product where
  id : Nat
  quantity : Int
deriving DecidableEq, Repr

/-- Row lookup by primary key (`Product.objects.get(pk=...)` /
`select_for_update().get(pk=...)`). -/
def lookupProduct (store : List Product) (pid : Nat) : Option Product :=
  store.find? (fun p => p.id == pid)

/-- The quantity the sale paths read for a product id (0 when absent, a case
that raises in the code and is an error branch in the embedding). -/
def qtyOf (store : List Product) (pid : Nat) : Int :=
  match lookupProduct store pid with
  | some p => p.quantity
  | none => 0

/-- `product.quantity = q; product.save(update_fields=['quantity'])`:
write the quantity of the row with the given primary key. -/
def setQuantity (store : List Product) (pid : Nat) (q : Int) : List Product :=
  store.map (fun p => if p.id = pid then { p with quantity := q } else p)

/-- Error outcomes of the sale endpoints: DRF `ValidationError`s carry a
message; the under-lock stock failure names the offending product; the
stop-sale branch of `SaleViewSet.create` returns its own distinct 403. -/
inductive SaleError where
| validationErr (msg : String)
| insufficientStock (productId : Nat)
| gateClosed
deriving DecidableEq, Repr

/-- DRF field validation that `ModelSerializer` generates from
`SaleItem.quantity`, a `PositiveIntegerField`: the serializer integer field
gets `min_value=0`, so a negative quantity is rejected before `validate`
runs.  The `discount_amount` and `vat_percent` serializer fields are plain
`DecimalField`s with no minimum (`sales/serializers.py` lines 48-61). -/
def itemFieldsValid (items : List ItemInput) : Bool :=
  items.all (fun it => 0 ≤ it.quantity)

/-- The unlocked per-item stock pre-check of `SaleSerializer.validate`
(`sales/serializers.py` lines 82-117): resolve each product and raise a
`ValidationError` if its (pre-lock) quantity is below the requested one. -/
def stockPrecheck (store : List Product) : List ItemInput → Option SaleError
| [] => none
| it :: rest =>
  match lookupProduct store it.productId with
  | none => some (SaleError.validationErr "Product not found")
  | some p =>
    if p.quantity < it.quantity then
      some (SaleError.validationErr "Insufficient stock")
    else stockPrecheck store rest

/-- `SaleSerializer.validate` (`sales/serializers.py` lines 76-133): reject an
empty item list; run the unlocked stock pre-check; then, when
`discount_amount` is truthy (non-zero), reject it if it exceeds the
subtotal. -/
def validateSale (store : List Product) (items : List ItemInput) (discountAmount : Int) :
    Option SaleError :=
  if items.isEmpty then
    some (SaleError.validationErr "A sale must include at least one item.")
  else
    match stockPrecheck store items with
    | some e => some e
    | none =>
      if discountAmount ≠ 0 ∧ saleSubtotal items < discountAmount then
        some (SaleError.validationErr "Discount amount cannot exceed subtotal")
      else none

/-- A persisted `SaleItem` row (`sales/models.py` lines 44-56). -/
structure SaleItemRec where
  productId : Nat
  quantity : Int
  unitPrice : Int
  subtotal : Int
deriving DecidableEq, Repr

/-- A persisted `Sale` row (`sales/models.py` lines 9-28) with its items;
amounts in hundredths.  Invoice identifiers are abstracted to the creation
index (their uniqueness is not among the verified claims). -/
structure SaleRec where
  invoiceId : Nat
  customerName : String
  subtotal : Int
  discountAmount : Int
  vatAmount : Int
  totalAmount : Int
  paymentMethod : PaymentMethod
  amountPaid : Int
  changeDue : Int
  items : List SaleItemRec
deriving DecidableEq, Repr

/-- The per-item locked loop of `SaleSerializer.create`
(`sales/serializers.py` lines 182-205): for each item, lock the product row
(`select_for_update().get`), re-read its quantity under the lock, raise if
the re-read quantity is below the requested one, otherwise record the
`SaleItem` and write back the decremented quantity.  A later item for the
same product re-reads the already decremented value. -/
def lockAndDeduct : List Product → List ItemInput →
    Except SaleError (List Product × List SaleItemRec)
| store, [] => Except.ok (store, [])
| store, it :: rest =>
  match lookupProduct store it.productId with
  | none => Except.error (SaleError.validationErr "Product matching query does not exist")
  | some p =>
    if p.quantity < it.quantity then Except.error (SaleError.insufficientStock p.id)
    else
      match lockAndDeduct (setQuantity store p.id (p.quantity - it.quantity)) rest with
      | Except.error e => Except.error e
      | Except.ok (store2, recs) =>
        Except.ok (store2,
          { productId := p.id, quantity := it.quantity, unitPrice := it.unitPrice,
            subtotal := it.quantity * it.unitPrice } :: recs)

/-- The trace property enforced by the locked loop: at every step there is a
product row for the item, and the quantity re-read under the lock is at least
the requested quantity (the state advancing by the deduction). -/
def guardsHold : List Product → List ItemInput → Prop
| _, [] => True
| store, it :: rest =>
  ∃ p, lookupProduct store it.productId = some p ∧ it.quantity ≤ p.quantity ∧
    guardsHold (setQuantity store p.id (p.quantity - it.quantity)) rest

/-- `sales/signals.py create_credit_for_credit_sale` (lines 19-32): on a
newly created `Sale` whose payment method is credit, create the `Credit` row
with `outstanding_amount = total_amount - amount_paid`.  No `status` is
passed, so the model field default `'pending'` applies. -/
def createCreditForSale (s : SaleRec) : Option CreditRec :=
  if s.paymentMethod = PaymentMethod.credit then
    some { invoiceId := s.invoiceId,
           customerName := if s.customerName = "" then "Walk-in Customer" else s.customerName,
           totalAmount := s.totalAmount,
           amountPaid := s.amountPaid,
           outstandingAmount := s.totalAmount - s.amountPaid,
           status := CreditStatus.pending,
           payments := [] }
  else none

/-- The relational state the sale endpoints touch. -/
structure DB where
  products : List Product
  sales : List SaleRec
  credits : List CreditRec
deriving DecidableEq, Repr

/-- One `create_sale` request body, after field deserialization. -/
structure SaleRequest where
  items : List ItemInput
  discountAmount : Int
  vatPercent : Int
  amountPaid : Int
  paymentMethod : PaymentMethod
  customerName : String
deriving DecidableEq, Repr

/-- `SaleSerializer.create` under `@transaction.atomic`
(`sales/serializers.py` lines 135-207): compute the pricing, create the
`Sale` row, then run the locked per-item loop; any raised error rolls the
whole block back — the `Sale` row, every `SaleItem` row and every stock
deduction are discarded, so the returned database is the caller's unchanged
one.  On success the `post_save` signal `create_credit_for_credit_sale` runs
in the same operation. -/
def createSaleTx (db : DB) (r : SaleRequest) : DB × Except SaleError SaleRec :=
  let pr := computePricing r.items r.discountAmount r.vatPercent r.amountPaid
  match lockAndDeduct db.products r.items with
  | Except.error e => (db, Except.error e)
  | Except.ok (store2, recs) =>
    let sale : SaleRec :=
      { invoiceId := db.sales.length, customerName := r.customerName,
        subtotal := pr.subtotal, discountAmount := pr.discountAmount,
        vatAmount := pr.vatAmount, totalAmount := pr.totalAmount,
        paymentMethod := r.paymentMethod, amountPaid := r.amountPaid,
        changeDue := pr.changeDue, items := recs }
    ({ products := store2, sales := db.sales ++ [sale],
       credits := db.credits ++ (createCreditForSale sale).toList },
     Except.ok sale)

/-- The serializer pipeline behind `POST /sales`: DRF field validation
(quantity ≥ 0), then `SaleSerializer.validate`, then `SaleSerializer.create`;
an `is_valid` failure returns 400 with no state touched. -/
def createSaleRequest (db : DB) (r : SaleRequest) : DB × Except SaleError SaleRec :=
  if itemFieldsValid r.items = false then
    (db, Except.error
      (SaleError.validationErr "Ensure this value is greater than or equal to 0."))
  else
    match validateSale db.products r.items r.discountAmount with
    | some e => (db, Except.error e)
    | none => createSaleTx db r

/-- `SaleViewSet.create` (`sales/views.py` lines 84-96): when the cached
`is_sale_stopped` flag is set and the requesting user's role is neither ADMIN
nor MANAGER, return the distinct stop-sale 403 before any serializer or lock
work; otherwise run the normal create pipeline. -/
def saleViewCreate (isSaleStopped : Bool) (role : String) (db : DB) (r : SaleRequest) :
    DB × Except SaleError SaleRec :=
  if isSaleStopped ∧ role ≠ "ADMIN" ∧ role ≠ "MANAGER" then
    (db, Except.error SaleError.gateClosed)
  else createSaleRequest db r

/-- Whether a create outcome is a success. -/
def saleOk (e : Except SaleError SaleRec) : Bool :=
  match e with
  | Except.ok _ => true
  | Except.error _ => false

/-- Sequential composition of `create_sale` requests: the product row lock
serializes concurrent requests touching a product, so any interleaving of the
locked deduction paths is equivalent to running them in lock-acquisition
order (spec §5).  Returns the final database and each request's outcome. -/
def runRequests (db : DB) : List SaleRequest → DB × List (SaleRequest × Bool)
| [] => (db, [])
| r :: rs =>
  let step := createSaleRequest db r
  let rest := runRequests step.1 rs
  (rest.1, (r, saleOk step.2) :: rest.2)

/-- Total quantity a request's items ask of one product. -/
def totalRequested (items : List ItemInput) (pid : Nat) : Int :=
  ((items.filter (fun it => it.productId == pid)).map (fun it => it.quantity)).sum

/-- Sum of the deductions of the succeeded requests for one product. -/
def succeededSum (outs : List (SaleRequest × Bool)) (pid : Nat) : Int :=
  ((outs.filter (fun o => o.2)).map (fun o => totalRequested o.1.items pid)).sum

/-- Credit records reachable through the public operations: creation by the
post_save signal of a credit sale, the `clear` payment action, and the
`mark_partial` action. -/
inductive CreditReachable : CreditRec → Prop where
| created (s : SaleRec) (c : CreditRec) :
    createCreditForSale s = some c → CreditReachable c
| paid (c c2 : CreditRec) (a : Int) :
    CreditReachable c → clearCredit c a = Except.ok c2 → CreditReachable c2
| marked (c c2 : CreditRec) :
    CreditReachable c → markAsPartPaid c = Except.ok c2 → CreditReachable c2

/-- Product 1 at quantity 10; a request with discount 1500.00 against a
subtotal of 1000.00. -/
def c4Db : DB := { products := [{ id := 1, quantity := 10 }], sales := [], credits := [] }

def c4Req : SaleRequest :=
  { items := [{ productId := 1, quantity := 1, unitPrice := 100000 }],
    discountAmount := 150000, vatPercent := 0, amountPaid := 0,
    paymentMethod := PaymentMethod.cash, customerName := "D" }

/-- A credit sale of 1000.00 with 300.00 paid up front. -/
def c5Sale : SaleRec :=
  { invoiceId := 7, customerName := "Ada", subtotal := 100000, discountAmount := 0,
    vatAmount := 0, totalAmount := 100000, paymentMethod := PaymentMethod.credit,
    amountPaid := 30000, changeDue := 0, items := [] }

/-- The credit row the signal creates for `c5Sale`: outstanding 700.00 and
the model default status `pending`. -/
def c5Credit : CreditRec :=
  { invoiceId := 7, customerName := "Ada", totalAmount := 100000, amountPaid := 30000,
    outstandingAmount := 70000, status := CreditStatus.pending, payments := [] }

/-- A credit with 700.00 outstanding on a 1000.00 total. -/
def c6Credit : CreditRec :=
  { invoiceId := 9, customerName := "C", totalAmount := 100000, amountPaid := 30000,
    outstandingAmount := 70000, status := CreditStatus.partPaid, payments := [] }

/-- A store and a request on which a privileged create still succeeds. -/
def c8Db : DB := { products := [{ id := 1, quantity := 10 }], sales := [], credits := [] }

def c8Req : SaleRequest :=
  { items := [{ productId := 1, quantity := 2, unitPrice := 10000 }],
    discountAmount := 0, vatPercent := 0, amountPaid := 20000,
    paymentMethod := PaymentMethod.cash, customerName := "M" }

def c9Db : DB := { products := [{ id := 1, quantity := 10 }], sales := [], credits := [] }

/-- A line item with quantity 0. -/
def c9ReqZero : SaleRequest :=
  { items := [{ productId := 1, quantity := 0, unitPrice := 100 }],
    discountAmount := 0, vatPercent := 0, amountPaid := 0,
    paymentMethod := PaymentMethod.cash, customerName := "Z" }

/-- A request with an empty line-item list. -/
def c9ReqEmpty : SaleRequest :=
  { items := [], discountAmount := 0, vatPercent := 0, amountPaid := 0,
    paymentMethod := PaymentMethod.cash, customerName := "E" }

/-- A request with VAT percent -50.00. -/
def c9ReqNegVat : SaleRequest :=
  { items := [{ productId := 1, quantity := 1, unitPrice := 10000 }],
    discountAmount := 0, vatPercent := -5000, amountPaid := 20000,
    paymentMethod := PaymentMethod.cash, customerName := "N" }

instance exceptDecEq {ε α : Type} [DecidableEq ε] [DecidableEq α] :
    DecidableEq (Except ε α) := fun x y =>
  match x, y with
  | Except.ok a, Except.ok b =>
    if h : a = b then isTrue (by rw [h]) else isFalse (fun hh => h (Except.ok.inj hh))
  | Except.error a, Except.error b =>
    if h : a = b then isTrue (by rw [h]) else isFalse (fun hh => h (Except.error.inj hh))
  | Except.ok _, Except.error _ => isFalse (fun hh => Except.noConfusion hh)
  | Except.error _, Except.ok _ => isFalse (fun hh => Except.noConfusion hh)

/-- Product 1 starts at quantity 5; three requests each ask for 2. -/
def c1Db : DB := { products := [{ id := 1, quantity := 5 }], sales := [], credits := [] }

def c1Req : SaleRequest :=
  { items := [{ productId := 1, quantity := 2, unitPrice := 100 }],
    discountAmount := 0, vatPercent := 0, amountPaid := 200,
    paymentMethod := PaymentMethod.cash, customerName := "A" }

def c1Rs : List SaleRequest := [c1Req, c1Req, c1Req]

/-- Product 1 at quantity 5 and product 2 at quantity 10; a three-item sale
whose third line item re-requests product 1: the unlocked pre-check passes
(2 ≤ 5, 2 ≤ 10, 4 ≤ 5) but under lock the third item reads 5 - 2 = 3 < 4. -/
def c2Db : DB :=
  { products := [{ id := 1, quantity := 5 }, { id := 2, quantity := 10 }],
    sales := [], credits := [] }

def c2Req : SaleRequest :=
  { items := [{ productId := 1, quantity := 2, unitPrice := 100 },
              { productId := 2, quantity := 2, unitPrice := 100 },
              { productId := 1, quantity := 4, unitPrice := 100 }],
    discountAmount := 0, vatPercent := 0, amountPaid := 0,
    paymentMethod := PaymentMethod.cash, customerName := "B" }

/-! ### Helper lemmas about the store -/

theorem lookupProduct_id {store : List Product} {pid : Nat} {p : Product}
    (h : lookupProduct store pid = some p) : p.id = pid := by
  have := List.find?_some h
  simpa using this

theorem setQuantity_cons (a : Product) (l : List Product) (t : Nat) (q : Int) :
    setQuantity (a :: l) t q =
      (if a.id = t then { a with quantity := q } else a) :: setQuantity l t q := rfl

theorem setQuantity_id (a : Product) (t : Nat) (q : Int) :
    (if a.id = t then { a with quantity := q } else a).id = a.id := by
  by_cases h : a.id = t <;> simp [h]

theorem lookupProduct_cons (a : Product) (l : List Product) (pid : Nat) :
    lookupProduct (a :: l) pid = if a.id = pid then some a else lookupProduct l pid := by
  by_cases h : a.id = pid
  · rw [if_pos h]
    exact List.find?_cons_of_pos _ (by simpa using h)
  · rw [if_neg h]
    exact List.find?_cons_of_neg _ (by simpa using h)

theorem lookupProduct_setQuantity (store : List Product) (t : Nat) (q : Int) (pid : Nat) :
    lookupProduct (setQuantity store t q) pid =
      Option.map (fun p => if p.id = t then { p with quantity := q } else p)
        (lookupProduct store pid) := by
  induction store with
  | nil => rfl
  | cons a l ih =>
    rw [setQuantity_cons, lookupProduct_cons, lookupProduct_cons]
    simp only [setQuantity_id]
    by_cases hap : a.id = pid
    · simp [hap]
    · simp only [hap, if_false, if_neg hap]
      exact ih

theorem qtyOf_eq_of_lookup {store : List Product} {pid : Nat} {p : Product}
    (h : lookupProduct store pid = some p) : qtyOf store pid = p.quantity := by
  simp [qtyOf, h]

theorem qtyOf_setQuantity {store : List Product} {t : Nat} {p0 : Product}
    (h : lookupProduct store t = some p0) (q : Int) (pid : Nat) :
    qtyOf (setQuantity store t q) pid = if pid = t then q else qtyOf store pid := by
  unfold qtyOf
  rw [lookupProduct_setQuantity]
  cases hl : lookupProduct store pid with
  | none =>
    have hne : pid ≠ t := by
      intro he
      rw [he, h] at hl
      exact Option.noConfusion hl
    simp [hne]
  | some p =>
    have hid : p.id = pid := lookupProduct_id hl
    by_cases hpt : pid = t
    · simp [hid, hpt]
    · simp [hid, hpt]

theorem totalRequested_cons (it : ItemInput) (rest : List ItemInput) (pid : Nat) :
    totalRequested (it :: rest) pid =
      (if it.productId = pid then it.quantity else 0) + totalRequested rest pid := by
  by_cases h : it.productId = pid <;> simp [totalRequested, List.filter_cons, h]

theorem succeededSum_cons (r : SaleRequest) (b : Bool) (outs : List (SaleRequest × Bool))
    (pid : Nat) :
    succeededSum ((r, b) :: outs) pid =
      (if b then totalRequested r.items pid else 0) + succeededSum outs pid := by
  cases b <;> simp [succeededSum, List.filter_cons]

/-! ### Behaviour of the locked deduction loop -/

theorem lockAndDeduct_qty (items : List ItemInput) :
    ∀ (store store2 : List Product) (recs : List SaleItemRec),
      lockAndDeduct store items = Except.ok (store2, recs) →
      ∀ pid, qtyOf store2 pid = qtyOf store pid - totalRequested items pid := by
  induction items with
  | nil =>
    intro store store2 recs h pid
    simp only [lockAndDeduct, Except.ok.injEq, Prod.mk.injEq] at h
    obtain ⟨h1, -⟩ := h
    subst h1
    simp [totalRequested]
  | cons it rest ih =>
    intro store store2 recs h pid
    cases hl : lookupProduct store it.productId with
    | none => simp [lockAndDeduct, hl] at h
    | some p =>
      have hid : p.id = it.productId := lookupProduct_id hl
      have hl2 : lookupProduct store p.id = some p := by rw [hid]; exact hl
      by_cases hq : p.quantity < it.quantity
      · simp [lockAndDeduct, hl, hq] at h
      · cases hr : lockAndDeduct (setQuantity store p.id (p.quantity - it.quantity)) rest with
        | error e => simp [lockAndDeduct, hl, hq, hr] at h
        | ok pr =>
          obtain ⟨storeM, recsM⟩ := pr
          simp only [lockAndDeduct, hl, hq, if_false, hr, Except.ok.injEq,
            Prod.mk.injEq] at h
          obtain ⟨hs, -⟩ := h
          subst hs
          have ihh := ih _ _ _ hr pid
          have hset := qtyOf_setQuantity hl2 (p.quantity - it.quantity) pid
          rw [totalRequested_cons, ihh, hset]
          by_cases hpid : pid = p.id
          · have hqty : qtyOf store pid = p.quantity := by
              rw [hpid]
              exact qtyOf_eq_of_lookup hl2
            have hit : it.productId = pid := by rw [hpid, hid]
            rw [if_pos hpid, if_pos hit, hqty]
            omega
          · have hit : ¬ it.productId = pid := by
              intro hh
              exact hpid (by rw [← hh, hid])
            rw [if_neg hpid, if_neg hit]
            omega

theorem lockAndDeduct_nonneg (items : List ItemInput) :
    ∀ (store store2 : List Product) (recs : List SaleItemRec),
      (∀ pid, 0 ≤ qtyOf store pid) →
      lockAndDeduct store items = Except.ok (store2, recs) →
      ∀ pid, 0 ≤ qtyOf store2 pid := by
  induction items with
  | nil =>
    intro store store2 recs hnn h pid
    simp only [lockAndDeduct, Except.ok.injEq, Prod.mk.injEq] at h
    obtain ⟨h1, -⟩ := h
    subst h1
    exact hnn pid
  | cons it rest ih =>
    intro store store2 recs hnn h pid
    cases hl : lookupProduct store it.productId with
    | none => simp [lockAndDeduct, hl] at h
    | some p =>
      have hid : p.id = it.productId := lookupProduct_id hl
      have hl2 : lookupProduct store p.id = some p := by rw [hid]; exact hl
      by_cases hq : p.quantity < it.quantity
      · simp [lockAndDeduct, hl, hq] at h
      · cases hr : lockAndDeduct (setQuantity store p.id (p.quantity - it.quantity)) rest with
        | error e => simp [lockAndDeduct, hl, hq, hr] at h
        | ok pr =>
          obtain ⟨storeM, recsM⟩ := pr
          simp only [lockAndDeduct, hl, hq, if_false, hr, Except.ok.injEq,
            Prod.mk.injEq] at h
          obtain ⟨hs, -⟩ := h
          subst hs
          refine ih _ _ _ ?_ hr pid
          intro pid2
          rw [qtyOf_setQuantity hl2 (p.quantity - it.quantity) pid2]
          by_cases hpid : pid2 = p.id
          · rw [if_pos hpid]
            omega
          · rw [if_neg hpid]
            exact hnn pid2

theorem lockAndDeduct_guards (items : List ItemInput) :
    ∀ (store : List Product) (out : List Product × List SaleItemRec),
      lockAndDeduct store items = Except.ok out → guardsHold store items := by
  induction items with
  | nil =>
    intro store out _
    trivial
  | cons it rest ih =>
    intro store out h
    cases hl : lookupProduct store it.productId with
    | none => simp [lockAndDeduct, hl] at h
    | some p =>
      by_cases hq : p.quantity < it.quantity
      · simp [lockAndDeduct, hl, hq] at h
      · cases hr : lockAndDeduct (setQuantity store p.id (p.quantity - it.quantity)) rest with
        | error e => simp [lockAndDeduct, hl, hq, hr] at h
        | ok pr =>
          exact ⟨p, hl, by omega, ih _ _ hr⟩

/-! ### Behaviour of one create_sale request -/

theorem createSaleRequest_error_frame (db : DB) (r : SaleRequest) :
    saleOk (createSaleRequest db r).2 = false → (createSaleRequest db r).1 = db := by
  intro h
  unfold createSaleRequest at *
  by_cases hf : itemFieldsValid r.items = false
  · simp [hf]
  · simp only [hf, if_false] at *
    cases hv : validateSale db.products r.items r.discountAmount with
    | some e => simp [hv]
    | none =>
      simp only [hv] at h ⊢
      unfold createSaleTx at *
      cases hr : lockAndDeduct db.products r.items with
      | error e => simp [hr]
      | ok pr =>
        obtain ⟨store2, recs⟩ := pr
        simp [hr, saleOk] at h

theorem createSaleRequest_ok_qty (db : DB) (r : SaleRequest) (db2 : DB) (s : SaleRec) :
    createSaleRequest db r = (db2, Except.ok s) →
    ∀ pid, qtyOf db2.products pid = qtyOf db.products pid - totalRequested r.items pid := by
  intro h pid
  unfold createSaleRequest at h
  by_cases hf : itemFieldsValid r.items = false
  · simp [hf] at h
  · simp only [hf, if_false] at h
    cases hv : validateSale db.products r.items r.discountAmount with
    | some e => simp [hv] at h
    | none =>
      simp only [hv] at h
      unfold createSaleTx at h
      cases hr : lockAndDeduct db.products r.items with
      | error e => simp [hr] at h
      | ok pr =>
        obtain ⟨store2, recs⟩ := pr
        simp only [hr, Prod.mk.injEq] at h
        obtain ⟨rfl, -⟩ := h
        exact lockAndDeduct_qty r.items db.products store2 recs hr pid

theorem createSaleRequest_ok_nonneg (db : DB) (r : SaleRequest) (db2 : DB) (s : SaleRec) :
    (∀ pid, 0 ≤ qtyOf db.products pid) →
    createSaleRequest db r = (db2, Except.ok s) →
    ∀ pid, 0 ≤ qtyOf db2.products pid := by
  intro hnn h pid
  unfold createSaleRequest at h
  by_cases hf : itemFieldsValid r.items = false
  · simp [hf] at h
  · simp only [hf, if_false] at h
    cases hv : validateSale db.products r.items r.discountAmount with
    | some e => simp [hv] at h
    | none =>
      simp only [hv] at h
      unfold createSaleTx at h
      cases hr : lockAndDeduct db.products r.items with
      | error e => simp [hr] at h
      | ok pr =>
        obtain ⟨store2, recs⟩ := pr
        simp only [hr, Prod.mk.injEq] at h
        obtain ⟨rfl, -⟩ := h
        exact lockAndDeduct_nonneg r.items db.products store2 recs hnn hr pid

theorem qtyOf_nonneg_of_all {store : List Product} (h : ∀ p ∈ store, 0 ≤ p.quantity) :
    ∀ pid, 0 ≤ qtyOf store pid := by
  intro pid
  unfold qtyOf
  cases hl : lookupProduct store pid with
  | none => exact le_refl 0
  | some p => exact h p (List.mem_of_find?_eq_some hl)

theorem runRequests_spec (rs : List SaleRequest) :
    ∀ (db : DB), (∀ pid, 0 ≤ qtyOf db.products pid) →
      (∀ pid, 0 ≤ qtyOf (runRequests db rs).1.products pid) ∧
      (∀ pid, qtyOf (runRequests db rs).1.products pid
          = qtyOf db.products pid - succeededSum (runRequests db rs).2 pid) := by
  induction rs with
  | nil =>
    intro db hnn
    refine ⟨fun pid => hnn pid, fun pid => ?_⟩
    simp [runRequests, succeededSum]
  | cons r rs ih =>
    intro db hnn
    rcases hstep : createSaleRequest db r with ⟨db1, res⟩
    have hrun : runRequests db (r :: rs)
        = ((runRequests db1 rs).1, (r, saleOk res) :: (runRequests db1 rs).2) := by
      simp [runRequests, hstep]
    cases res with
    | error e =>
      have hframe : db1 = db := by
        have h2 : saleOk (createSaleRequest db r).2 = false := by rw [hstep]; rfl
        have h3 := createSaleRequest_error_frame db r h2
        rw [hstep] at h3
        exact h3
      subst hframe
      obtain ⟨ih1, ih2⟩ := ih db1 hnn
      refine ⟨fun pid => ?_, fun pid => ?_⟩
      · rw [hrun]
        exact ih1 pid
      · rw [hrun]
        show qtyOf (runRequests db1 rs).1.products pid
            = qtyOf db1.products pid
              - succeededSum ((r, saleOk (Except.error e)) :: (runRequests db1 rs).2) pid
        rw [succeededSum_cons, ih2 pid]
        have hb : saleOk (Except.error e : Except SaleError SaleRec) = false := rfl
        rw [hb, if_neg (by simp)]
        omega
    | ok s =>
      have heff := createSaleRequest_ok_qty db r db1 s hstep
      have hnn1 := createSaleRequest_ok_nonneg db r db1 s hnn hstep
      obtain ⟨ih1, ih2⟩ := ih db1 hnn1
      refine ⟨fun pid => ?_, fun pid => ?_⟩
      · rw [hrun]
        exact ih1 pid
      · rw [hrun]
        show qtyOf (runRequests db1 rs).1.products pid
            = qtyOf db.products pid
              - succeededSum ((r, saleOk (Except.ok s)) :: (runRequests db1 rs).2) pid
        rw [succeededSum_cons, ih2 pid, heff pid]
        have hb : saleOk (Except.ok s : Except SaleError SaleRec) = true := rfl
        rw [hb, if_pos rfl]
        omega

/-- C1: for every product store with non-negative quantities and every
sequence of create_sale requests processed through the locked deduction path
(serialized by the product row locks), quantities never become negative and
each product's final quantity equals its initial quantity minus the sum of
the deductions of the succeeded requests; moreover a deduction is applied
only when, at each step, the quantity re-read under the lock is at least the
requested quantity. -/
theorem stock_conserved_never_negative :
    (∀ (db : DB) (rs : List SaleRequest),
      (∀ pid, 0 ≤ qtyOf db.products pid) →
      (∀ pid, 0 ≤ qtyOf (runRequests db rs).1.products pid) ∧
      (∀ pid, qtyOf (runRequests db rs).1.products pid
          = qtyOf db.products pid - succeededSum (runRequests db rs).2 pid)) ∧
    (∀ (store : List Product) (items : List ItemInput)
        (out : List Product × List SaleItemRec),
      lockAndDeduct store items = Except.ok out → guardsHold store items) :=
  ⟨fun db rs h => runRequests_spec rs db h,
   fun _ items out h => lockAndDeduct_guards items _ out h⟩

theorem stock_conserved_never_negative_witness :
    (qtyOf (runRequests c1Db c1Rs).1.products 1
        = qtyOf c1Db.products 1 - succeededSum (runRequests c1Db c1Rs).2 1)
    ∧ qtyOf (runRequests c1Db c1Rs).1.products 1 = 1
    ∧ succeededSum (runRequests c1Db c1Rs).2 1 = 4 :=
  ⟨(stock_conserved_never_negative.1 c1Db c1Rs
      (qtyOf_nonneg_of_all (by decide))).2 1,
   by decide, by decide⟩

/-- C2: create_sale is all-or-nothing: whenever the locked per-item loop
fails on any line item, the call errors and the returned database is the
caller's unchanged one — no Sale row, no SaleItem rows, and every product
quantity (including those of items already processed) intact. -/
theorem createSale_allOrNothing :
    ∀ (db : DB) (r : SaleRequest) (e : SaleError),
      lockAndDeduct db.products r.items = Except.error e →
      (createSaleRequest db r).1 = db ∧ saleOk (createSaleRequest db r).2 = false := by
  intro db r e h
  unfold createSaleRequest
  by_cases hf : itemFieldsValid r.items = false
  · simp [hf, saleOk]
  · simp only [hf, if_false]
    cases hv : validateSale db.products r.items r.discountAmount with
    | some e2 => simp [saleOk]
    | none =>
      unfold createSaleTx
      simp [h, saleOk]

theorem createSale_allOrNothing_witness :
    (createSaleRequest c2Db c2Req).1 = c2Db
      ∧ saleOk (createSaleRequest c2Db c2Req).2 = false :=
  createSale_allOrNothing c2Db c2Req (SaleError.insufficientStock 1) (by decide)

/-! ### Pricing -/

theorem computePricing_subtotal (items : List ItemInput) (d v p : Int) :
    (computePricing items d v p).subtotal = saleSubtotal items := rfl

theorem computePricing_discount (items : List ItemInput) (d v p : Int) :
    (computePricing items d v p).discountAmount = min d (saleSubtotal items) := rfl

theorem computePricing_vat (items : List ItemInput) (d v p : Int) :
    (computePricing items d v p).vatAmount
      = if v ≠ 0
        then halfEvenDiv ((saleSubtotal items - min d (saleSubtotal items)) * v) 10000
        else 0 := rfl

theorem computePricing_total (items : List ItemInput) (d v p : Int) :
    (computePricing items d v p).totalAmount
      = (saleSubtotal items - min d (saleSubtotal items))
        + (computePricing items d v p).vatAmount := rfl

theorem computePricing_change (items : List ItemInput) (d v p : Int) :
    (computePricing items d v p).changeDue
      = if (computePricing items d v p).totalAmount ≤ p
        then p - (computePricing items d v p).totalAmount
        else 0 := rfl

/-- C3 (amended): the pricing computation satisfies VAT base = subtotal −
effective discount, VAT amount = VAT base × VAT% / 100 rounded to 2 decimal
places with round-half-EVEN (Python round on Decimal), total = VAT base +
VAT amount, change = max(0, amount tendered − total); and concretely
subtotal 1000.00, discount 100.00, vat 7.5%, paid 1000.00 yields
VAT base 900.00, vat 67.50, total 967.50, change 32.50. -/
theorem pricing_half_even_formula :
    (∀ (items : List ItemInput) (d v p : Int),
      (computePricing items d v p).vatAmount
          = halfEvenDiv ((saleSubtotal items - min d (saleSubtotal items)) * v) 10000
      ∧ (computePricing items d v p).totalAmount
          = (saleSubtotal items - min d (saleSubtotal items))
            + (computePricing items d v p).vatAmount
      ∧ (computePricing items d v p).changeDue
          = max 0 (p - (computePricing items d v p).totalAmount)) ∧
    computePricing [{ productId := 1, quantity := 1, unitPrice := 100000 }] 10000 750 100000
      = { subtotal := 100000, discountAmount := 10000, vatAmount := 6750,
          totalAmount := 96750, changeDue := 3250 } := by
  refine ⟨fun items d v p => ⟨?_, computePricing_total items d v p, ?_⟩, by decide⟩
  · rw [computePricing_vat]
    by_cases hv : v = 0
    · rw [if_neg (by simp [hv]), hv, mul_zero]
      decide
    · rw [if_pos hv]
  · rw [computePricing_change]
    by_cases hle : (computePricing items d v p).totalAmount ≤ p
    · rw [if_pos hle]
      omega
    · rw [if_neg hle]
      omega

/-- C3 counterexample: the claim says the VAT amount is rounded
round-half-up, but on VAT base 1.00 with VAT 12.5% the exact VAT is 0.125;
the code (Python round, half-even) produces 0.12 while the claimed half-up
rounding produces 0.13. -/
theorem pricing_rounding_counterexample :
    (computePricing [{ productId := 1, quantity := 1, unitPrice := 100 }] 0 1250 0).vatAmount
        = 12
    ∧ halfUpDiv (((100 : Int) - min 0 100) * 1250) 10000 = 13
    ∧ (computePricing [{ productId := 1, quantity := 1, unitPrice := 100 }] 0 1250 0).vatAmount
        ≠ halfUpDiv (((100 : Int) - min 0 100) * 1250) 10000 := by
  refine ⟨by decide, by decide, by decide⟩

/-! ### Discount handling (C4) -/

theorem stockPrecheck_some_msg (items : List ItemInput) :
    ∀ (store : List Product) (e : SaleError), stockPrecheck store items = some e →
      ∃ m, e = SaleError.validationErr m := by
  induction items with
  | nil =>
    intro store e h
    simp [stockPrecheck] at h
  | cons it rest ih =>
    intro store e h
    cases hl : lookupProduct store it.productId with
    | none =>
      simp only [stockPrecheck, hl] at h
      exact ⟨_, (Option.some.inj h).symm⟩
    | some p =>
      by_cases hq : p.quantity < it.quantity
      · simp only [stockPrecheck, hl, if_pos hq] at h
        exact ⟨_, (Option.some.inj h).symm⟩
      · simp only [stockPrecheck, hl, if_neg hq] at h
        exact ih store e h

theorem validateSale_rejects_discount (store : List Product) (items : List ItemInput)
    (d : Int) (hd : 0 < d) (hlt : saleSubtotal items < d) :
    ∃ m, validateSale store items d = some (SaleError.validationErr m) := by
  unfold validateSale
  by_cases he : items.isEmpty
  · rw [if_pos he]
    exact ⟨_, rfl⟩
  · rw [if_neg he]
    cases hp : stockPrecheck store items with
    | some e =>
      obtain ⟨m, hm⟩ := stockPrecheck_some_msg items store e hp
      exact ⟨m, by rw [hm]⟩
    | none =>
      have hcond : d ≠ 0 ∧ saleSubtotal items < d := ⟨by omega, hlt⟩
      exact ⟨_, if_pos hcond⟩

theorem itemFieldsValid_all {items : List ItemInput} (h : itemFieldsValid items = true) :
    ∀ it ∈ items, 0 ≤ it.quantity := by
  simpa [itemFieldsValid, List.all_eq_true] using h

theorem createSaleRequest_ok_parts (db : DB) (r : SaleRequest) (db2 : DB) (s : SaleRec) :
    createSaleRequest db r = (db2, Except.ok s) →
    itemFieldsValid r.items = true
    ∧ s.totalAmount
        = (computePricing r.items r.discountAmount r.vatPercent r.amountPaid).totalAmount
    ∧ db2.credits = db.credits ++ (createCreditForSale s).toList := by
  intro h
  unfold createSaleRequest at h
  by_cases hf : itemFieldsValid r.items = false
  · simp [hf] at h
  · have htrue : itemFieldsValid r.items = true := by
      cases hb : itemFieldsValid r.items
      · exact absurd hb hf
      · rfl
    rw [if_neg hf] at h
    cases hv : validateSale db.products r.items r.discountAmount with
    | some e =>
      rw [hv] at h
      simp at h
    | none =>
      rw [hv] at h
      unfold createSaleTx at h
      cases hr : lockAndDeduct db.products r.items with
      | error e =>
        rw [hr] at h
        simp at h
      | ok pr =>
        obtain ⟨store2, recs⟩ := pr
        rw [hr] at h
        simp only [Prod.mk.injEq, Except.ok.injEq] at h
        obtain ⟨hdb, hs⟩ := h
        refine ⟨htrue, by rw [← hs], ?_⟩
        rw [← hdb, ← hs]

theorem halfEvenDiv_nonneg {n d : Int} (hn : 0 ≤ n) (hd : 0 < d) :
    0 ≤ halfEvenDiv n d := by
  unfold halfEvenDiv
  have hq : 0 ≤ Int.fdiv n d := Int.fdiv_nonneg hn (le_of_lt hd)
  dsimp only
  split_ifs <;> omega

theorem saleSubtotal_nonneg {items : List ItemInput}
    (hq : ∀ it ∈ items, 0 ≤ it.quantity) (hp : ∀ it ∈ items, 0 ≤ it.unitPrice) :
    0 ≤ saleSubtotal items := by
  unfold saleSubtotal
  apply List.sum_nonneg
  intro x hx
  obtain ⟨it, hit, rfl⟩ := List.mem_map.mp hx
  exact mul_nonneg (hq it hit) (hp it hit)

theorem computePricing_total_nonneg {items : List ItemInput} {d v p : Int}
    (hq : ∀ it ∈ items, 0 ≤ it.quantity) (hp : ∀ it ∈ items, 0 ≤ it.unitPrice)
    (hv : 0 ≤ v) : 0 ≤ (computePricing items d v p).totalAmount := by
  have hsub : 0 ≤ saleSubtotal items := saleSubtotal_nonneg hq hp
  have hbase : 0 ≤ saleSubtotal items - min d (saleSubtotal items) := by
    have := min_le_right d (saleSubtotal items)
    omega
  have hvat : 0 ≤ (computePricing items d v p).vatAmount := by
    rw [computePricing_vat]
    by_cases hv0 : v ≠ 0
    · rw [if_pos hv0]
      exact halfEvenDiv_nonneg (mul_nonneg hbase hv) (by norm_num)
    · rw [if_neg hv0]
  rw [computePricing_total]
  omega

/-- C4 (amended): a sale input whose positive discount amount exceeds the
subtotal does NOT succeed: `SaleSerializer.validate` rejects it with a
ValidationError and no state change (the `min(discount, subtotal)` clamp in
`create` is unreachable for such inputs).  On every committed sale with
non-negative VAT percent and unit prices, the clamp keeps the total
non-negative. -/
theorem discount_exceeding_subtotal_rejected :
    (∀ (db : DB) (r : SaleRequest),
      0 < r.discountAmount → saleSubtotal r.items < r.discountAmount →
      (createSaleRequest db r).1 = db
      ∧ ∃ m, (createSaleRequest db r).2 = Except.error (SaleError.validationErr m)) ∧
    (∀ (db : DB) (r : SaleRequest) (db2 : DB) (s : SaleRec),
      createSaleRequest db r = (db2, Except.ok s) →
      0 ≤ r.vatPercent → (∀ it ∈ r.items, 0 ≤ it.unitPrice) →
      0 ≤ s.totalAmount) := by
  constructor
  · intro db r hd hlt
    unfold createSaleRequest
    by_cases hf : itemFieldsValid r.items = false
    · rw [if_pos hf]
      exact ⟨rfl, _, rfl⟩
    · rw [if_neg hf]
      obtain ⟨m, hm⟩ := validateSale_rejects_discount db.products r.items r.discountAmount hd hlt
      rw [hm]
      exact ⟨rfl, m, rfl⟩
  · intro db r db2 s h hv hp
    obtain ⟨htrue, hts, -⟩ := createSaleRequest_ok_parts db r db2 s h
    rw [hts]
    exact computePricing_total_nonneg (itemFieldsValid_all htrue) hp hv

theorem discount_exceeding_subtotal_rejected_witness :
    (createSaleRequest c4Db c4Req).1 = c4Db
    ∧ ∃ m, (createSaleRequest c4Db c4Req).2 = Except.error (SaleError.validationErr m) :=
  discount_exceeding_subtotal_rejected.1 c4Db c4Req (by decide) (by decide)

/-- C4 counterexample: with discount 1500.00 against subtotal 1000.00 the
claim expects a successful sale with effective discount 1000.00 and total 0,
but the code rejects the request at validation and leaves the database
unchanged. -/
theorem discount_clamp_counterexample :
    saleOk (createSaleRequest c4Db c4Req).2 = false
    ∧ (createSaleRequest c4Db c4Req).2
        = Except.error (SaleError.validationErr "Discount amount cannot exceed subtotal")
    ∧ (createSaleRequest c4Db c4Req).1 = c4Db := by
  refine ⟨by decide, by decide, by decide⟩

/-! ### Credit creation and lifecycle (C5-C7, C10) -/

/-- C5 (amended): every sale created with payment_method=credit gets a Credit
record in the same operation with outstanding = total − amount paid, but its
status is the model field default `pending` regardless of the two amounts
(the signal passes no status and never calls `update_status`). -/
theorem credit_created_with_outstanding_pending :
    (∀ (s : SaleRec) (c : CreditRec),
      s.paymentMethod = PaymentMethod.credit →
      createCreditForSale s = some c →
      c.totalAmount = s.totalAmount
      ∧ c.amountPaid = s.amountPaid
      ∧ c.outstandingAmount = s.totalAmount - s.amountPaid
      ∧ c.status = CreditStatus.pending) ∧
    (∀ (db : DB) (r : SaleRequest) (db2 : DB) (s : SaleRec),
      createSaleRequest db r = (db2, Except.ok s) →
      db2.credits = db.credits ++ (createCreditForSale s).toList) := by
  constructor
  · intro s c hm hc
    unfold createCreditForSale at hc
    rw [if_pos hm] at hc
    have hrec := Option.some.inj hc
    subst hrec
    exact ⟨rfl, rfl, rfl, rfl⟩
  · intro db r db2 s h
    exact (createSaleRequest_ok_parts db r db2 s h).2.2

theorem credit_created_with_outstanding_pending_witness :
    c5Credit.totalAmount = c5Sale.totalAmount
    ∧ c5Credit.amountPaid = c5Sale.amountPaid
    ∧ c5Credit.outstandingAmount = c5Sale.totalAmount - c5Sale.amountPaid
    ∧ c5Credit.status = CreditStatus.pending :=
  credit_created_with_outstanding_pending.1 c5Sale c5Credit (by decide) (by decide)

/-- C5 counterexample: for a credit sale of 1000.00 with 300.00 paid, the
claim expects the created Credit's status to be computed from the amounts
(partially_paid); the code creates it with outstanding 700.00 but status
`pending`, the model default. -/
theorem credit_creation_status_counterexample :
    createCreditForSale c5Sale = some c5Credit
    ∧ c5Credit.outstandingAmount = 70000
    ∧ c5Credit.status = CreditStatus.pending
    ∧ pureStatus c5Credit.amountPaid c5Credit.outstandingAmount = CreditStatus.partPaid
    ∧ c5Credit.status ≠ pureStatus c5Credit.amountPaid c5Credit.outstandingAmount := by
  refine ⟨by decide, by decide, by decide, by decide, by decide⟩

/-- C6: the clear action rejects a payment amount ≤ 0 or greater than the
outstanding amount with no state change, and otherwise atomically increments
amount_paid, decrements outstanding by the same amount, appends the payment
row, and recomputes the status as the pure function of the two amounts; a
payment of exactly the outstanding amount yields outstanding 0 and status
cleared.  (The hypothesis rules out the unreachable state of a credit marked
cleared while money is still outstanding: `update_status` only sets cleared
when outstanding ≤ 0.) -/
theorem apply_credit_payment_spec :
    ∀ (c : CreditRec) (a : Int),
      (c.status = CreditStatus.cleared → c.outstandingAmount ≤ 0) →
      ((a ≤ 0 ∨ c.outstandingAmount < a) → ∃ m, clearCredit c a = Except.error m) ∧
      (0 < a → a ≤ c.outstandingAmount →
        clearCredit c a = Except.ok
          { c with amountPaid := c.amountPaid + a,
                   outstandingAmount := c.outstandingAmount - a,
                   status := pureStatus (c.amountPaid + a) (c.outstandingAmount - a),
                   payments := c.payments ++ [a] }) ∧
      (0 < a → a = c.outstandingAmount →
        ∃ c2, clearCredit c a = Except.ok c2
          ∧ c2.outstandingAmount = 0 ∧ c2.status = CreditStatus.cleared) := by
  intro c a hcl
  have hmain : 0 < a → a ≤ c.outstandingAmount →
      clearCredit c a = Except.ok
        { c with amountPaid := c.amountPaid + a,
                 outstandingAmount := c.outstandingAmount - a,
                 status := pureStatus (c.amountPaid + a) (c.outstandingAmount - a),
                 payments := c.payments ++ [a] } := by
    intro ha hle
    have h1 : ¬ c.status = CreditStatus.cleared := by
      intro h
      have := hcl h
      omega
    unfold clearCredit
    rw [if_neg h1, if_neg (by omega), if_neg (by omega)]
    rfl
  refine ⟨?_, hmain, ?_⟩
  · intro h
    unfold clearCredit
    by_cases h1 : c.status = CreditStatus.cleared
    · exact ⟨_, by rw [if_pos h1]⟩
    · rw [if_neg h1]
      by_cases h2 : a ≤ 0
      · exact ⟨_, by rw [if_pos h2]⟩
      · rw [if_neg h2]
        have h3 : c.outstandingAmount < a := by
          rcases h with h | h
          · omega
          · exact h
        exact ⟨_, by rw [if_pos h3]⟩
  · intro ha heq
    refine ⟨_, hmain ha (by omega), ?_, ?_⟩
    · show c.outstandingAmount - a = 0
      omega
    · show pureStatus (c.amountPaid + a) (c.outstandingAmount - a) = CreditStatus.cleared
      unfold pureStatus
      rw [if_pos (by omega)]

theorem apply_credit_payment_spec_witness :
    clearCredit c6Credit 70000
        = Except.ok { invoiceId := 9, customerName := "C", totalAmount := 100000,
                      amountPaid := 100000, outstandingAmount := 0,
                      status := CreditStatus.cleared, payments := [70000] }
    ∧ (∃ m, clearCredit c6Credit 70100 = Except.error m) :=
  ⟨(apply_credit_payment_spec c6Credit 70000 (by decide)).2.1 (by decide) (by decide),
   (apply_credit_payment_spec c6Credit 70100 (by decide)).1 (Or.inr (by decide))⟩

/-- C7 (amended): the clear (apply_payment) operation always leaves the
credit's status equal to the pure function of its two amounts; it is credit
creation (always `pending`) and mark_partial (always `partially_paid`) that
set status without consulting the amounts. -/
theorem clear_recomputes_status :
    ∀ (c : CreditRec) (a : Int) (c2 : CreditRec),
      clearCredit c a = Except.ok c2 →
      c2.status = pureStatus c2.amountPaid c2.outstandingAmount := by
  intro c a c2 h
  unfold clearCredit at h
  by_cases h1 : c.status = CreditStatus.cleared
  · rw [if_pos h1] at h
    exact Except.noConfusion h
  · rw [if_neg h1] at h
    by_cases h2 : a ≤ 0
    · rw [if_pos h2] at h
      exact Except.noConfusion h
    · rw [if_neg h2] at h
      by_cases h3 : c.outstandingAmount < a
      · rw [if_pos h3] at h
        exact Except.noConfusion h
      · rw [if_neg h3] at h
        have hc2 := Except.ok.inj h
        subst hc2
        rfl

theorem clear_recomputes_status_witness :
    (creditPaymentSave none c6Credit 70000).status
      = pureStatus (creditPaymentSave none c6Credit 70000).amountPaid
          (creditPaymentSave none c6Credit 70000).outstandingAmount :=
  clear_recomputes_status c6Credit 70000 (creditPaymentSave none c6Credit 70000) (by decide)

/-- C7 counterexample: a Credit reachable through the public operations (the
creation signal for a credit sale with 300.00 paid on 1000.00) whose status
(`pending`) differs from the pure function of its amounts
(`partially_paid`): status is not an invariant of the two amounts. -/
theorem credit_status_not_pure_counterexample :
    CreditReachable c5Credit
    ∧ c5Credit.status ≠ pureStatus c5Credit.amountPaid c5Credit.outstandingAmount :=
  ⟨CreditReachable.created c5Sale c5Credit (by decide), by decide⟩

/-- C10: saving an already persisted CreditPayment (one with a primary key)
leaves the parent credit — amount_paid, outstanding_amount, status and the
payment list — entirely unchanged: the parent is mutated only at the
payment's first insertion. -/
theorem resave_payment_no_double_apply :
    ∀ (k : Nat) (c : CreditRec) (a : Int), creditPaymentSave (some k) c a = c := by
  intro k c a
  unfold creditPaymentSave
  rw [if_neg (by simp)]

/-! ### Sale gate (C8) and input validation (C9) -/

/-- C8: with the stop-sale gate set, a create_sale call by a requester whose
role is not privileged returns the distinct gate error with the database
untouched (before any lock or serializer work), while a privileged
(ADMIN/MANAGER) call runs the normal pipeline unchanged — and can still
succeed, as the concrete MANAGER call shows. -/
theorem gate_enforcement :
    (∀ (role : String) (db : DB) (r : SaleRequest),
      role ≠ "ADMIN" → role ≠ "MANAGER" →
      saleViewCreate true role db r = (db, Except.error SaleError.gateClosed)) ∧
    (∀ (role : String) (db : DB) (r : SaleRequest),
      (role = "ADMIN" ∨ role = "MANAGER") →
      saleViewCreate true role db r = createSaleRequest db r) ∧
    saleOk (saleViewCreate true "MANAGER" c8Db c8Req).2 = true := by
  refine ⟨?_, ?_, by decide⟩
  · intro role db r h1 h2
    unfold saleViewCreate
    rw [if_pos ⟨rfl, h1, h2⟩]
  · intro role db r h
    rcases h with rfl | rfl <;> simp [saleViewCreate]

theorem gate_enforcement_witness :
    saleViewCreate true "CASHIER" c8Db c8Req = (c8Db, Except.error SaleError.gateClosed) :=
  gate_enforcement.1 "CASHIER" c8Db c8Req (by decide) (by decide)

/-- C9 (amended): create_sale rejects with a synchronous ValidationError and
no state change whenever the line-item list is empty or any line item
quantity is negative (the DRF bound generated from PositiveIntegerField);
a quantity of exactly 0 and a negative VAT percentage are accepted. -/
theorem invalid_input_rejected :
    ∀ (db : DB) (r : SaleRequest),
      (r.items = [] ∨ ∃ it ∈ r.items, it.quantity < 0) →
      (createSaleRequest db r).1 = db
      ∧ ∃ m, (createSaleRequest db r).2 = Except.error (SaleError.validationErr m) := by
  intro db r h
  unfold createSaleRequest
  by_cases hf : itemFieldsValid r.items = false
  · rw [if_pos hf]
    exact ⟨rfl, _, rfl⟩
  · rw [if_neg hf]
    have htrue : itemFieldsValid r.items = true := by
      cases hb : itemFieldsValid r.items
      · exact absurd hb hf
      · rfl
    have hempty : r.items = [] := by
      rcases h with he | ⟨it, hmem, hneg⟩
      · exact he
      · exact absurd (itemFieldsValid_all htrue it hmem) (by omega)
    have hv : validateSale db.products r.items r.discountAmount
        = some (SaleError.validationErr "A sale must include at least one item.") := by
      rw [hempty]
      rfl
    rw [hv]
    exact ⟨rfl, _, rfl⟩

theorem invalid_input_rejected_witness :
    (createSaleRequest c9Db c9ReqEmpty).1 = c9Db
    ∧ ∃ m, (createSaleRequest c9Db c9ReqEmpty).2
        = Except.error (SaleError.validationErr m) :=
  invalid_input_rejected c9Db c9ReqEmpty (Or.inl rfl)

/-- C9 counterexample: the claim says a line item quantity ≤ 0 and a negative
VAT percentage are each rejected; the code accepts a sale with a line item
quantity of 0 and a sale with VAT percent -50.00 — both calls succeed. -/
theorem input_validation_counterexample :
    saleOk (createSaleRequest c9Db c9ReqZero).2 = true
    ∧ saleOk (createSaleRequest c9Db c9ReqNegVat).2 = true := by
  refine ⟨by decide, by decide⟩

end KasaliOloshe
